import Mathlib

/-!
Verification of the parbat enrollment service (server/index.js).

Shallow embedding of the OTP issuance-and-verification core of the server.
The durable store (Postgres tables `subscribers` and `pending_verifications`)
is modelled as lists of rows; SQL statements become list operations with the
semantics the queries have under the schema's PRIMARY KEY / UNIQUE
constraints.  External I/O (bcrypt, the reCAPTCHA provider, the Brevo
delivery call, `crypto.randomInt` entropy, the clock) is passed in as
explicit parameters.  Timestamps are naturals (milliseconds).
-/

namespace Parbat

/-- Models Node's `crypto.randomInt(lo, hi)`: a random integer `n` with
`lo <= n < hi` (the upper bound is exclusive).  The randomness is supplied
as an explicit `entropy` value; every residue of `entropy` modulo the range
size is reachable, matching the uniform choice over `[lo, hi)`. -/
def randomInt (lo hi entropy : Nat) : Nat :=
  lo + entropy % (hi - lo)

/-- Digit extraction with explicit fuel (`n / 10 < n` shrinks strictly, so
`n + 1` units of fuel always suffice). -/
def natToDecimalAux : Nat → Nat → List Nat
  | 0, _ => []
  | fuel + 1, n =>
    if n < 10 then [n] else natToDecimalAux fuel (n / 10) ++ [n % 10]

/-- Decimal digits of `n`, most significant first (no leading zeros),
as produced by JavaScript's `Number.prototype.toString()`. -/
def natToDecimal (n : Nat) : List Nat :=
  natToDecimalAux (n + 1) n

/-- The decimal string for the generated OTP integer
(`crypto.randomInt(...).toString()` in the source). -/
def otpString (n : Nat) : String :=
  String.mk ((natToDecimal n).map (fun d => Char.ofNat (48 + d)))

/-- Models the bcryptjs hash capability: a salted one-way hash of the code.
Only the contract the server relies on is kept: hashing is deterministic in
`(code, salt)` and `bcrypt.compare` succeeds exactly on the hashed code. -/
structure OtpHash where
  salt : Nat
  code : String
  deriving DecidableEq, Repr

/-- Models `bcrypt.hash(code, 10)` with an explicit salt. -/
def bcryptHash (code : String) (salt : Nat) : OtpHash :=
  ⟨salt, code⟩

/-- Models `bcrypt.compare(otp, otp_hash)`: true iff `otp` is the code the
hash was produced from. -/
def bcryptCompare (otp : String) (h : OtpHash) : Bool :=
  otp == h.code

/-- A character class matching JavaScript's `\s` on the code points the
service can meet (ASCII whitespace and the common Unicode space
separators). -/
def isJsSpace (c : Char) : Bool :=
  c == ' ' || c == '\t' || c == '\n' || c == '\r' || c == '\x0b' ||
  c == '\x0c' || c.toNat == 0xa0 || c.toNat == 0x1680 ||
  c.toNat == 0x2028 || c.toNat == 0x2029 || c.toNat == 0x202f ||
  c.toNat == 0x205f || c.toNat == 0x3000 || c.toNat == 0xfeff ||
  (0x2000 <= c.toNat && c.toNat <= 0x200a)

/-- JavaScript's `String.prototype.toLowerCase()` on the code points the
service can meet (the ASCII mapping, applied characterwise). -/
def jsToLower (s : String) : String :=
  String.mk (s.data.map Char.toLower)

/-- JavaScript's `String.prototype.trim()`: strip `\s`-class characters from
both ends. -/
def jsTrim (s : String) : String :=
  String.mk (((s.data.dropWhile isJsSpace).reverse.dropWhile isJsSpace).reverse)

/-- A character admitted by `[^\s@]`: neither whitespace nor `@`. -/
def isEmailChar (c : Char) : Bool :=
  !isJsSpace c && c != '@'

/-- Matcher for the server's email pattern `/^[^\s@]+@[^\s@]+\.[^\s@]+$/`:
a nonempty `@`-free, space-free local part, one `@`, and a domain of
`[^\s@]+ "." [^\s@]+` — i.e. a space-free, `@`-free part containing a dot
that is neither its first nor its last character. -/
def emailRegexTest (s : String) : Bool :=
  let cs := s.data
  let localPart := cs.takeWhile (fun c => c != '@')
  match cs.dropWhile (fun c => c != '@') with
  | [] => false
  | _ :: domain =>
    decide (0 < localPart.length) && localPart.all (fun c => !isJsSpace c) &&
    domain.all isEmailChar && (domain.drop 1).dropLast.contains '.'

/-- A JSON value as it can arrive in an `express.json()` request body field. -/
inductive JsonVal where
  | str (s : String)
  | num (n : Int)
  | bool (b : Bool)
  | obj
  | arr
  | null
  | missing
  deriving DecidableEq, Repr

/-- Function `validateEmail` from server/index.js: reject non-strings, lowercase and
trim, then test the pattern; returns the normalized email on success. -/
def validateEmail : JsonVal → Option String
  | .str s =>
    let normalized := jsTrim (jsToLower s)
    if emailRegexTest normalized then some normalized else none
  | _ => none

/-- The verify handler's code-format guard
`typeof otp !== 'string' || otp.length !== 6`, phrased positively. -/
def otpFormatOk : JsonVal → Bool
  | .str s => s.length == 6
  | _ => false

/-- A row of `pending_verifications` (email is the PRIMARY KEY). -/
structure Pending where
  email : String
  otp_hash : OtpHash
  expires_at : Nat
  deriving DecidableEq, Repr

/-- The durable store: the `subscribers` and `pending_verifications`
tables.  `subscribers` keeps only the UNIQUE email column the server ever
consults. -/
structure Store where
  subscribers : List String
  pending : List Pending
  deriving DecidableEq, Repr

/-- Membership test `SELECT 1 FROM subscribers WHERE email = $1`. -/
def isSubscribed (st : Store) (email : String) : Bool :=
  st.subscribers.contains email

/-- Sweep `DELETE FROM pending_verifications WHERE expires_at < NOW()`. -/
def purgeExpired (st : Store) (now : Nat) : Store :=
  { st with pending := st.pending.filter (fun p => !(p.expires_at < now)) }

/-- Upsert `INSERT INTO pending_verifications ... ON CONFLICT (email) DO UPDATE`:
atomic create-or-replace keyed by email. -/
def upsertPending (st : Store) (p : Pending) : Store :=
  { st with pending := p :: st.pending.filter (fun q => q.email != p.email) }

/-- Lookup `SELECT otp_hash, expires_at FROM pending_verifications WHERE email = $1`
(at most one row, by the PRIMARY KEY). -/
def getPending (st : Store) (email : String) : Option Pending :=
  st.pending.find? (fun p => p.email == email)

/-- Deletion `DELETE FROM pending_verifications WHERE email = $1`. -/
def deletePending (st : Store) (email : String) : Store :=
  { st with pending := st.pending.filter (fun p => p.email != email) }

/-- Insert-if-absent `INSERT INTO subscribers (email) VALUES ($1) ON
CONFLICT (email) DO NOTHING`. -/
def insertSubscriber (st : Store) (email : String) : Store :=
  if st.subscribers.contains email then st
  else { st with subscribers := email :: st.subscribers }

/-- The `pending_verifications` PRIMARY KEY invariant: no two rows share an
email. -/
def pendingUniq (st : Store) : Prop :=
  (st.pending.map Pending.email).Nodup

instance (st : Store) : Decidable (pendingUniq st) := by
  unfold pendingUniq; infer_instance

/-- Deployment environment the reCAPTCHA check reads. -/
structure Env where
  recaptchaConfigured : Bool
  production : Bool
  deriving DecidableEq, Repr

/-- What the reCAPTCHA provider call would come back with: a transport /
provider error, or a response with a `success` flag and an optional
`score`. -/
inductive Provider where
  | err
  | ok (success : Bool) (score : Option ℚ)
  deriving DecidableEq

/-- Function `verifyRecaptcha` from server/index.js (v5): skip when no secret key is
configured; skip for the `test-token` bypass outside production; otherwise
consult the provider, treating any error as failure and requiring
`success` with a score that is absent or at least 0.5. -/
def verifyRecaptcha (env : Env) (token : Option String) (p : Provider) : Bool :=
  if !env.recaptchaConfigured then true
  else if !env.production && token == some "test-token" then true
  else
    match p with
    | .err => false
    | .ok success score =>
      success && (score.isNone || decide ((1 : ℚ)/2 ≤ score.getD 0))

/-- The v5 check returns `true` without consulting the provider ("skip")
exactly on its two early-return branches. -/
def recaptchaSkips (env : Env) (token : Option String) : Bool :=
  !env.recaptchaConfigured || (!env.production && token == some "test-token")

/-- The inline bot check of the v4 `/api/subscribe` variant: run only when
the token is not `test-token` and a secret key shaped like `6L...` is
configured; reject (HTTP 400) on `!success` or a present score below 0.5;
a thrown provider error is logged and the request continues (fail open).
Returns `true` when issuance proceeds past the check. -/
def v4BotAllows (secretConfigured : Bool) (secretStarts6L : Bool)
    (token : Option String) (p : Provider) : Bool :=
  if token != some "test-token" && (secretConfigured && secretStarts6L) then
    match p with
    | .err => true
    | .ok success score =>
      !(!success || (score.isSome && decide (score.getD 0 < (1 : ℚ)/2)))
  else true

/-- Outcome of `POST /api/subscribe` (v5). -/
inductive SubscribeResult where
  | invalidEmail       -- 400 "Please provide a valid email address."
  | botSuspected       -- 403 "Security check failed. Please try again."
  | alreadySubscribed  -- 400 "This email is already verified and subscribed!"
  | deliveryFailed     -- 500 (the Brevo call threw; caught by the handler)
  | ok                 -- 200 "Verification code sent to your email."
  deriving DecidableEq, Repr

/-- The `/api/subscribe` handler (v5): validate, bot-check, purge expired
pending rows, reject already-subscribed emails, generate and hash a fresh
OTP, upsert the pending row with a 15-minute expiry, then attempt
delivery.  A delivery failure is reported as a 500 but the upserted row
stays (the handler's catch block performs no store rollback). -/
def subscribe (st : Store) (email : JsonVal) (env : Env)
    (token : Option String) (provider : Provider) (now entropy salt : Nat)
    (deliveryOk : Bool) : SubscribeResult × Store :=
  match validateEmail email with
  | none => (.invalidEmail, st)
  | some e =>
    if !verifyRecaptcha env token provider then (.botSuspected, st)
    else
      let st1 := purgeExpired st now
      if isSubscribed st1 e then (.alreadySubscribed, st1)
      else
        let otp := otpString (randomInt 100000 999999 entropy)
        let st2 := upsertPending st1
          ⟨e, bcryptHash otp salt, now + 15 * 60 * 1000⟩
        if deliveryOk then (.ok, st2) else (.deliveryFailed, st2)

/-- Outcome of `POST /api/verify` (v5). -/
inductive VerifyResult where
  | invalidInput  -- 400 "Invalid email or code format."
  | noPending     -- 400 "No pending verification found for this email."
  | codeExpired   -- 400 "Verification code has expired." (delete + COMMIT)
  | invalidCode   -- 400 "Invalid verification code." (ROLLBACK)
  | ok            -- 200 (delete pending, insert subscriber, COMMIT)
  deriving DecidableEq, Repr

/-- The `/api/verify` handler (v5): format-check email and otp, look up the
pending row, delete-and-commit on expiry (`new Date() > expires_at`),
roll back on a failed `bcrypt.compare`, and on success atomically delete
the pending row and insert the subscriber. -/
def verify (st : Store) (email otp : JsonVal) (now : Nat) :
    VerifyResult × Store :=
  match validateEmail email, otp with
  | some e, .str otpStr =>
    if otpStr.length != 6 then (.invalidInput, st)
    else
      match getPending st e with
      | none => (.noPending, st)
      | some p =>
        if p.expires_at < now then (.codeExpired, deletePending st e)
        else if !bcryptCompare otpStr p.otp_hash then (.invalidCode, st)
        else (.ok, insertSubscriber (deletePending st e) e)
  | _, _ => (.invalidInput, st)


/-! ## Helper lemmas -/

theorem natToDecimalAux_length (fuel : Nat) :
    ∀ k n, n < fuel → 10 ^ k ≤ n → n < 10 ^ (k + 1) →
      (natToDecimalAux fuel n).length = k + 1 := by
  induction fuel with
  | zero => intro k n h _ _; omega
  | succ fuel ih =>
    intro k n hfuel hlo hhi
    by_cases h10 : n < 10
    · have hk : k = 0 := by
        by_contra hk
        have h1k : 10 ^ 1 ≤ 10 ^ k := Nat.pow_le_pow_right (by omega) (by omega)
        rw [pow_one] at h1k
        omega
      subst hk
      simp [natToDecimalAux, h10]
    · have hk : k ≠ 0 := by
        rintro rfl
        rw [pow_one] at hhi
        omega
      obtain ⟨k, rfl⟩ : ∃ m, k = m + 1 := ⟨k - 1, by omega⟩
      have hdiv_fuel : n / 10 < fuel := by
        have := Nat.div_lt_self (by omega : 0 < n) (by omega : 1 < 10)
        omega
      have hlo' : 10 ^ k ≤ n / 10 := by
        rw [Nat.le_div_iff_mul_le (by omega : 0 < 10)]
        calc 10 ^ k * 10 = 10 ^ (k + 1) := (pow_succ 10 k).symm
          _ ≤ n := hlo
      have hhi' : n / 10 < 10 ^ (k + 1) := by
        rw [Nat.div_lt_iff_lt_mul (by omega : 0 < 10)]
        calc n < 10 ^ (k + 1 + 1) := hhi
          _ = 10 ^ (k + 1) * 10 := pow_succ 10 (k + 1)
      simp only [natToDecimalAux, if_neg h10, List.length_append,
        List.length_cons, List.length_nil]
      rw [ih k (n / 10) hdiv_fuel hlo' hhi']

theorem otpString_length (n : Nat) (hlo : 100000 ≤ n) (hhi : n < 1000000) :
    (otpString n).length = 6 := by
  have h : (natToDecimal n).length = 6 := by
    unfold natToDecimal
    exact natToDecimalAux_length (n + 1) 5 n (by omega) (by norm_num; omega)
      (by norm_num; omega)
  simpa [otpString, String.length] using h

theorem randomInt_mem (e : Nat) :
    100000 ≤ randomInt 100000 999999 e ∧ randomInt 100000 999999 e ≤ 999998 := by
  unfold randomInt
  have h : e % (999999 - 100000) < 899999 := Nat.mod_lt _ (by omega)
  omega

/-! ## C3: the code generator's range -/

/-- C3 counterexample: the claim that every value of `[100000, 999999]` is a
possible output of the generator is false — `crypto.randomInt(100000, 999999)`
has an exclusive upper bound, so the value 999999 can never be produced,
whatever the entropy. -/
theorem randomInt_cannot_reach_999999 :
    ¬ ∃ entropy, randomInt 100000 999999 entropy = 999999 := by
  rintro ⟨e, he⟩
  unfold randomInt at he
  have h : e % (999999 - 100000) < 899999 := Nat.mod_lt _ (by omega)
  omega

/-- C3 (amended): the generator's outputs are exactly the 899999 integers of
the inclusive range `[100000, 999998]` — every such value is reachable and no
other — and every generated code renders as a 6-digit decimal string. -/
theorem randomInt_range_and_six_digits (v entropy : Nat) :
    ((∃ e, randomInt 100000 999999 e = v) ↔ 100000 ≤ v ∧ v ≤ 999998) ∧
    (otpString (randomInt 100000 999999 entropy)).length = 6 := by
  constructor
  · constructor
    · rintro ⟨e, rfl⟩
      exact randomInt_mem e
    · rintro ⟨h1, h2⟩
      refine ⟨v - 100000, ?_⟩
      unfold randomInt
      rw [Nat.mod_eq_of_lt (by omega)]
      omega
  · obtain ⟨h1, h2⟩ := randomInt_mem entropy
    exact otpString_length _ h1 (by omega)

/-- C3 witness: the amended range theorem evaluated at the concrete value
123456 and entropy 0. -/
theorem randomInt_range_and_six_digits_witness :
    (∃ e, randomInt 100000 999999 e = 123456) ∧
    (otpString (randomInt 100000 999999 0)).length = 6 :=
  ⟨(randomInt_range_and_six_digits 123456 0).1.mpr (by omega),
   (randomInt_range_and_six_digits 123456 0).2⟩

/-! ## Store component lemmas -/

theorem purgeExpired_subscribers (st : Store) (now : Nat) :
    (purgeExpired st now).subscribers = st.subscribers := rfl

theorem upsertPending_subscribers (st : Store) (p : Pending) :
    (upsertPending st p).subscribers = st.subscribers := rfl

theorem deletePending_subscribers (st : Store) (e : String) :
    (deletePending st e).subscribers = st.subscribers := rfl

theorem insertSubscriber_pending (st : Store) (e : String) :
    (insertSubscriber st e).pending = st.pending := by
  unfold insertSubscriber
  split <;> rfl

theorem getPending_upsert_self (st : Store) (p : Pending) :
    getPending (upsertPending st p) p.email = some p := by
  simp [getPending, upsertPending]

theorem getPending_delete_self (st : Store) (e : String) :
    getPending (deletePending st e) e = none := by
  rw [getPending, List.find?_eq_none]
  intro x hx
  have hmem := List.of_mem_filter hx
  simpa using hmem

theorem isSubscribed_insert_self (st : Store) (e : String) :
    isSubscribed (insertSubscriber st e) e = true := by
  unfold isSubscribed insertSubscriber
  split
  · assumption
  · simp

/-! ## Evaluation lemmas for the subscribe handler -/

theorem subscribe_eq_of_pass (st : Store) (ej : JsonVal) (env : Env)
    (tok : Option String) (prov : Provider) (now entropy salt : Nat)
    (d : Bool) (e : String)
    (hval : validateEmail ej = some e)
    (hbot : verifyRecaptcha env tok prov = true)
    (hsub : isSubscribed (purgeExpired st now) e = false) :
    subscribe st ej env tok prov now entropy salt d =
      (if d then .ok else .deliveryFailed,
       upsertPending (purgeExpired st now)
         ⟨e, bcryptHash (otpString (randomInt 100000 999999 entropy)) salt,
          now + 15 * 60 * 1000⟩) := by
  unfold subscribe
  rw [hval]
  cases d <;> simp [hbot, hsub]

theorem subscribe_eq_of_already (st : Store) (ej : JsonVal) (env : Env)
    (tok : Option String) (prov : Provider) (now entropy salt : Nat)
    (d : Bool) (e : String)
    (hval : validateEmail ej = some e)
    (hbot : verifyRecaptcha env tok prov = true)
    (hsub : isSubscribed (purgeExpired st now) e = true) :
    subscribe st ej env tok prov now entropy salt d =
      (.alreadySubscribed, purgeExpired st now) := by
  unfold subscribe
  rw [hval]
  simp [hbot, hsub]

/-! ## C2: issuance for an already-subscribed email -/

/-- C2 counterexample: the claim that `issue(E)` for an already-subscribed E
performs no store mutation fails: the handler first deletes all expired
pending rows, so with subscriber `a@b.com` and an expired pending row for
`c@d.com` the call returns AlreadySubscribed but the pending table has
changed. -/
theorem subscribe_already_mutates_counterexample :
    (subscribe ⟨["a@b.com"], [⟨"c@d.com", ⟨0, "123456"⟩, 5⟩]⟩ (.str "a@b.com")
        ⟨false, false⟩ none .err 10 0 0 true).1 = .alreadySubscribed ∧
    (subscribe ⟨["a@b.com"], [⟨"c@d.com", ⟨0, "123456"⟩, 5⟩]⟩ (.str "a@b.com")
        ⟨false, false⟩ none .err 10 0 0 true).2 ≠
      ⟨["a@b.com"], [⟨"c@d.com", ⟨0, "123456"⟩, 5⟩]⟩ := by
  decide

/-- C2 (amended): `issue(E)` for an already-subscribed E fails with
AlreadySubscribed and performs no store mutation beyond the opportunistic
purge of expired pending rows that every issuance runs first: the
subscribers table is unchanged, the resulting pending table is exactly the
purge of the old one, and when no pending row has expired the whole store is
exactly the state before the call. -/
theorem subscribe_already_subscribed_frame (st : Store) (ej : JsonVal)
    (env : Env) (tok : Option String) (prov : Provider)
    (now entropy salt : Nat) (d : Bool) (e : String)
    (hval : validateEmail ej = some e)
    (hbot : verifyRecaptcha env tok prov = true)
    (hsub : isSubscribed st e = true) :
    (subscribe st ej env tok prov now entropy salt d).1 = .alreadySubscribed ∧
    (subscribe st ej env tok prov now entropy salt d).2 = purgeExpired st now ∧
    (subscribe st ej env tok prov now entropy salt d).2.subscribers =
      st.subscribers ∧
    ((∀ p ∈ st.pending, ¬ p.expires_at < now) →
      (subscribe st ej env tok prov now entropy salt d).2 = st) := by
  have hsub' : isSubscribed (purgeExpired st now) e = true := hsub
  rw [subscribe_eq_of_already st ej env tok prov now entropy salt d e
    hval hbot hsub']
  refine ⟨rfl, rfl, rfl, fun hlive => ?_⟩
  obtain ⟨subs, pend⟩ := st
  simp only [purgeExpired, Store.mk.injEq, true_and]
  rw [List.filter_eq_self]
  intro p hp
  simpa using hlive p hp

/-- C2 witness: the amended frame theorem at a concrete store holding one
subscriber and one live (unexpired) pending row: the call leaves the store
exactly unchanged. -/
theorem subscribe_already_subscribed_frame_witness :
    (subscribe ⟨["a@b.com"], [⟨"x@y.zz", ⟨0, "111111"⟩, 100⟩]⟩ (.str "a@b.com")
        ⟨false, false⟩ none .err 50 0 0 true).1 = .alreadySubscribed ∧
    (subscribe ⟨["a@b.com"], [⟨"x@y.zz", ⟨0, "111111"⟩, 100⟩]⟩ (.str "a@b.com")
        ⟨false, false⟩ none .err 50 0 0 true).2 =
      ⟨["a@b.com"], [⟨"x@y.zz", ⟨0, "111111"⟩, 100⟩]⟩ := by
  have h := subscribe_already_subscribed_frame
    ⟨["a@b.com"], [⟨"x@y.zz", ⟨0, "111111"⟩, 100⟩]⟩ (.str "a@b.com")
    ⟨false, false⟩ none .err 50 0 0 true "a@b.com"
    (by decide) (by decide) (by decide)
  exact ⟨h.1, h.2.2.2 (by decide)⟩

/-! ## Evaluation lemmas for the verify handler -/

theorem getPending_insertSubscriber (st : Store) (e e2 : String) :
    getPending (insertSubscriber st e2) e = getPending st e := by
  unfold getPending
  rw [insertSubscriber_pending]

theorem verify_eq_of_found (st : Store) (ej : JsonVal) (otpStr : String)
    (now : Nat) (e : String) (p : Pending)
    (hval : validateEmail ej = some e)
    (hlen : otpStr.length = 6)
    (hget : getPending st e = some p) :
    verify st ej (.str otpStr) now =
      if p.expires_at < now then (.codeExpired, deletePending st e)
      else if !bcryptCompare otpStr p.otp_hash then (.invalidCode, st)
      else (.ok, insertSubscriber (deletePending st e) e) := by
  unfold verify
  rw [hval]
  simp only [hlen]
  rw [hget]
  simp

theorem verify_eq_of_none (st : Store) (ej : JsonVal) (otpStr : String)
    (now : Nat) (e : String)
    (hval : validateEmail ej = some e)
    (hlen : otpStr.length = 6)
    (hget : getPending st e = none) :
    verify st ej (.str otpStr) now = (.noPending, st) := by
  unfold verify
  rw [hval]
  simp only [hlen]
  rw [hget]
  simp

theorem verify_eq_of_bad_format (st : Store) (ej otpj : JsonVal) (now : Nat)
    (h : validateEmail ej = none ∨ otpFormatOk otpj = false) :
    verify st ej otpj now = (.invalidInput, st) := by
  unfold verify
  rcases hv : validateEmail ej with _ | e
  · cases otpj <;> simp
  · rcases h with h | h
    · rw [hv] at h
      exact absurd h (by simp)
    · cases otpj <;> simp_all [otpFormatOk]

/-! ## C8: delivery failure does not roll back the pending record -/

/-- C8: when validation, the bot check and the not-already-subscribed check
all pass and the pending record has been upserted, a delivery failure is
reported to the caller as a failed issuance (the 500 path), but the freshly
upserted pending record for E — the new hash and the 15-minute expiry —
remains in the store. -/
theorem subscribe_delivery_failed_keeps_pending (st : Store) (ej : JsonVal)
    (env : Env) (tok : Option String) (prov : Provider)
    (now entropy salt : Nat) (e : String)
    (hval : validateEmail ej = some e)
    (hbot : verifyRecaptcha env tok prov = true)
    (hsub : isSubscribed st e = false) :
    (subscribe st ej env tok prov now entropy salt false).1 = .deliveryFailed ∧
    getPending (subscribe st ej env tok prov now entropy salt false).2 e =
      some ⟨e, bcryptHash (otpString (randomInt 100000 999999 entropy)) salt,
            now + 15 * 60 * 1000⟩ ∧
    (subscribe st ej env tok prov now entropy salt false).2 =
      upsertPending (purgeExpired st now)
        ⟨e, bcryptHash (otpString (randomInt 100000 999999 entropy)) salt,
         now + 15 * 60 * 1000⟩ := by
  have hsub' : isSubscribed (purgeExpired st now) e = false := hsub
  rw [subscribe_eq_of_pass st ej env tok prov now entropy salt false e
    hval hbot hsub']
  exact ⟨rfl, getPending_upsert_self _ _, rfl⟩

/-- C8 witness: a concrete failed delivery for `a@b.com` on the empty store:
the handler reports the failure yet the pending row with the hashed code
`"100000"` and expiry 900000 is present afterwards. -/
theorem subscribe_delivery_failed_keeps_pending_witness :
    (subscribe ⟨[], []⟩ (.str "a@b.com") ⟨false, false⟩ none .err 0 0 0
        false).1 = .deliveryFailed ∧
    getPending (subscribe ⟨[], []⟩ (.str "a@b.com") ⟨false, false⟩ none .err
        0 0 0 false).2 "a@b.com" =
      some ⟨"a@b.com", ⟨0, "100000"⟩, 900000⟩ := by
  have h := subscribe_delivery_failed_keeps_pending ⟨[], []⟩ (.str "a@b.com")
    ⟨false, false⟩ none .err 0 0 0 "a@b.com" (by decide) (by decide)
    (by decide)
  exact ⟨h.1, h.2.1⟩

/-! ## C1: issue then confirm with the delivered code -/

/-- C1: for a valid email E that is not already a subscriber, a successful
issuance followed immediately by confirmation with the exact code that was
generated and delivered returns success; afterwards E is subscribed and the
pending record for E is gone. -/
theorem issue_then_confirm_succeeds (st : Store) (ej : JsonVal) (env : Env)
    (tok : Option String) (prov : Provider) (now entropy salt : Nat)
    (e : String)
    (hval : validateEmail ej = some e)
    (hbot : verifyRecaptcha env tok prov = true)
    (hsub : isSubscribed st e = false) :
    (subscribe st ej env tok prov now entropy salt true).1 = .ok ∧
    (verify (subscribe st ej env tok prov now entropy salt true).2 ej
        (.str (otpString (randomInt 100000 999999 entropy))) now).1 = .ok ∧
    isSubscribed
      (verify (subscribe st ej env tok prov now entropy salt true).2 ej
        (.str (otpString (randomInt 100000 999999 entropy))) now).2 e =
      true ∧
    getPending
      (verify (subscribe st ej env tok prov now entropy salt true).2 ej
        (.str (otpString (randomInt 100000 999999 entropy))) now).2 e =
      none := by
  have hsub' : isSubscribed (purgeExpired st now) e = false := hsub
  have hcode := randomInt_mem entropy
  have hlen : (otpString (randomInt 100000 999999 entropy)).length = 6 :=
    otpString_length _ hcode.1 (by omega)
  have hsubeq := subscribe_eq_of_pass st ej env tok prov now entropy salt
    true e hval hbot hsub'
  have h1 : (subscribe st ej env tok prov now entropy salt true).1 = .ok := by
    rw [hsubeq]
    rfl
  have h2 : (subscribe st ej env tok prov now entropy salt true).2 =
      upsertPending (purgeExpired st now)
        ⟨e, bcryptHash (otpString (randomInt 100000 999999 entropy)) salt,
         now + 15 * 60 * 1000⟩ := by
    rw [hsubeq]
  have hget := getPending_upsert_self (purgeExpired st now)
    ⟨e, bcryptHash (otpString (randomInt 100000 999999 entropy)) salt,
     now + 15 * 60 * 1000⟩
  have hexp : ¬ (now + 15 * 60 * 1000 < now) := by omega
  have hv : verify
      (upsertPending (purgeExpired st now)
        ⟨e, bcryptHash (otpString (randomInt 100000 999999 entropy)) salt,
         now + 15 * 60 * 1000⟩) ej
      (.str (otpString (randomInt 100000 999999 entropy))) now =
      (.ok, insertSubscriber
        (deletePending (upsertPending (purgeExpired st now)
          ⟨e, bcryptHash (otpString (randomInt 100000 999999 entropy)) salt,
           now + 15 * 60 * 1000⟩) e) e) := by
    rw [verify_eq_of_found _ ej _ now e _ hval hlen hget]
    simp [hexp, bcryptCompare, bcryptHash]
  refine ⟨h1, ?_, ?_, ?_⟩
  · rw [h2, hv]
  · rw [h2, hv]
    exact isSubscribed_insert_self _ _
  · rw [h2, hv]
    show getPending (insertSubscriber (deletePending (upsertPending
      (purgeExpired st now)
      ⟨e, bcryptHash (otpString (randomInt 100000 999999 entropy)) salt,
       now + 15 * 60 * 1000⟩) e) e) e = none
    rw [getPending_insertSubscriber, getPending_delete_self]

/-- C1 witness: the whole flow on the empty store for `a@b.com` with entropy
0: issuance succeeds, confirming with the delivered code `"100000"`
succeeds, and afterwards `a@b.com` is subscribed with no pending row. -/
theorem issue_then_confirm_succeeds_witness :
    (subscribe ⟨[], []⟩ (.str "a@b.com") ⟨false, false⟩ none .err 0 0 0
        true).1 = .ok ∧
    (verify (subscribe ⟨[], []⟩ (.str "a@b.com") ⟨false, false⟩ none .err
        0 0 0 true).2 (.str "a@b.com") (.str "100000") 0).1 = .ok ∧
    isSubscribed
      (verify (subscribe ⟨[], []⟩ (.str "a@b.com") ⟨false, false⟩ none .err
        0 0 0 true).2 (.str "a@b.com") (.str "100000") 0).2 "a@b.com" =
      true ∧
    getPending
      (verify (subscribe ⟨[], []⟩ (.str "a@b.com") ⟨false, false⟩ none .err
        0 0 0 true).2 (.str "a@b.com") (.str "100000") 0).2 "a@b.com" =
      none :=
  issue_then_confirm_succeeds ⟨[], []⟩ (.str "a@b.com") ⟨false, false⟩ none
    .err 0 0 0 "a@b.com" (by decide) (by decide) (by decide)

/-! ## C4: wrong code on a live pending record -/

/-- C4: with a live (unexpired) pending record for E, confirming with a code
that fails the hash check returns InvalidCode, leaves the store — and hence
the pending record for E — exactly unchanged, and E stays unsubscribed. -/
theorem confirm_wrong_code_invalid (st : Store) (ej : JsonVal)
    (otpStr : String) (now : Nat) (e : String) (p : Pending)
    (hval : validateEmail ej = some e)
    (hlen : otpStr.length = 6)
    (hget : getPending st e = some p)
    (hlive : ¬ p.expires_at < now)
    (hcmp : bcryptCompare otpStr p.otp_hash = false)
    (hns : isSubscribed st e = false) :
    verify st ej (.str otpStr) now = (.invalidCode, st) ∧
    getPending (verify st ej (.str otpStr) now).2 e = some p ∧
    isSubscribed (verify st ej (.str otpStr) now).2 e = false := by
  have hv : verify st ej (.str otpStr) now = (.invalidCode, st) := by
    rw [verify_eq_of_found st ej otpStr now e p hval hlen hget]
    simp [hlive, hcmp]
  rw [hv]
  exact ⟨rfl, hget, hns⟩

/-- C4 witness: wrong code `"654321"` against the pending record for
`a@b.com` hashed from `"123456"`, before its expiry: InvalidCode, record
kept, still unsubscribed. -/
theorem confirm_wrong_code_invalid_witness :
    verify ⟨[], [⟨"a@b.com", ⟨0, "123456"⟩, 1000⟩]⟩ (.str "a@b.com")
        (.str "654321") 500 =
      (.invalidCode, ⟨[], [⟨"a@b.com", ⟨0, "123456"⟩, 1000⟩]⟩) ∧
    isSubscribed (verify ⟨[], [⟨"a@b.com", ⟨0, "123456"⟩, 1000⟩]⟩
        (.str "a@b.com") (.str "654321") 500).2 "a@b.com" = false := by
  have h := confirm_wrong_code_invalid
    ⟨[], [⟨"a@b.com", ⟨0, "123456"⟩, 1000⟩]⟩ (.str "a@b.com") "654321" 500
    "a@b.com" ⟨"a@b.com", ⟨0, "123456"⟩, 1000⟩
    (by decide) (by decide) (by decide) (by decide) (by decide) (by decide)
  exact ⟨h.1, h.2.2⟩

/-! ## C5: expired pending record -/

/-- C5: when E's pending record has expired, confirming with the correct
code (the expiry check runs before the hash is even consulted) deletes the
pending record and returns CodeExpired; an immediately following identical
confirmation returns NoPendingVerification. -/
theorem confirm_expired_then_no_pending (st : Store) (ej : JsonVal)
    (otpStr : String) (now now2 : Nat) (e : String) (p : Pending)
    (hval : validateEmail ej = some e)
    (hlen : otpStr.length = 6)
    (hget : getPending st e = some p)
    (_hcmp : bcryptCompare otpStr p.otp_hash = true)
    (hexp : p.expires_at < now) :
    verify st ej (.str otpStr) now = (.codeExpired, deletePending st e) ∧
    getPending (verify st ej (.str otpStr) now).2 e = none ∧
    verify (verify st ej (.str otpStr) now).2 ej (.str otpStr) now2 =
      (.noPending, deletePending st e) := by
  have hv : verify st ej (.str otpStr) now =
      (.codeExpired, deletePending st e) := by
    rw [verify_eq_of_found st ej otpStr now e p hval hlen hget]
    simp [hexp]
  rw [hv]
  exact ⟨rfl, getPending_delete_self st e,
    verify_eq_of_none (deletePending st e) ej otpStr now2 e hval hlen
      (getPending_delete_self st e)⟩

/-- C5 witness: the pending record for `a@b.com` expired at 100; confirming
with its correct code `"123456"` at time 200 yields CodeExpired and removes
the row, and retrying at 201 yields NoPendingVerification. -/
theorem confirm_expired_then_no_pending_witness :
    verify ⟨[], [⟨"a@b.com", ⟨0, "123456"⟩, 100⟩]⟩ (.str "a@b.com")
        (.str "123456") 200 = (.codeExpired, ⟨[], []⟩) ∧
    verify (verify ⟨[], [⟨"a@b.com", ⟨0, "123456"⟩, 100⟩]⟩ (.str "a@b.com")
        (.str "123456") 200).2 (.str "a@b.com") (.str "123456") 201 =
      (.noPending, ⟨[], []⟩) := by
  have h := confirm_expired_then_no_pending
    ⟨[], [⟨"a@b.com", ⟨0, "123456"⟩, 100⟩]⟩ (.str "a@b.com") "123456" 200 201
    "a@b.com" ⟨"a@b.com", ⟨0, "123456"⟩, 100⟩
    (by decide) (by decide) (by decide) (by decide) (by decide)
  exact ⟨h.1, h.2.2⟩

/-! ## C7: what failing confirmations do to the store -/

/-- C7 counterexample: a failing confirm does not always leave the store
exactly as before — on an expired record the handler deletes the row and
COMMITs before returning CodeExpired, so the state after the failed call
differs from the state before it. -/
theorem confirm_failure_mutates_counterexample :
    (verify ⟨[], [⟨"a@b.com", ⟨0, "123456"⟩, 100⟩]⟩ (.str "a@b.com")
        (.str "123456") 200).1 = .codeExpired ∧
    (verify ⟨[], [⟨"a@b.com", ⟨0, "123456"⟩, 100⟩]⟩ (.str "a@b.com")
        (.str "123456") 200).2 ≠
      ⟨[], [⟨"a@b.com", ⟨0, "123456"⟩, 100⟩]⟩ := by
  decide

/-- C7 (amended): failing confirmations with outcome InvalidInput,
NoPendingVerification or InvalidCode leave the store exactly as before the
attempt; the CodeExpired outcome commits exactly the deletion of the
email's pending record — the subscribers table is untouched — and nothing
else. -/
theorem confirm_failure_rollback (st : Store) (ej otpj : JsonVal)
    (now : Nat) :
    ((verify st ej otpj now).1 = .invalidInput ∨
     (verify st ej otpj now).1 = .noPending ∨
     (verify st ej otpj now).1 = .invalidCode →
      (verify st ej otpj now).2 = st) ∧
    ((verify st ej otpj now).1 = .codeExpired →
      ∃ e, validateEmail ej = some e ∧
        (verify st ej otpj now).2 = deletePending st e ∧
        (verify st ej otpj now).2.subscribers = st.subscribers) := by
  by_cases hfmt : validateEmail ej = none ∨ otpFormatOk otpj = false
  · rw [verify_eq_of_bad_format st ej otpj now hfmt]
    exact ⟨fun _ => rfl, fun h => by simp at h⟩
  · push_neg at hfmt
    obtain ⟨hvne, hfmt2⟩ := hfmt
    obtain ⟨e, he⟩ := Option.ne_none_iff_exists'.mp hvne
    cases otpj with
    | str sstr =>
      have hlen : sstr.length = 6 := by
        simpa [otpFormatOk] using hfmt2
      rcases hget : getPending st e with _ | p
      · rw [verify_eq_of_none st ej sstr now e he hlen hget]
        exact ⟨fun _ => rfl, fun h => by simp at h⟩
      · by_cases hexp : p.expires_at < now
        · have hv : verify st ej (.str sstr) now =
              (.codeExpired, deletePending st e) := by
            rw [verify_eq_of_found st ej sstr now e p he hlen hget]
            simp [hexp]
          rw [hv]
          refine ⟨fun h => ?_, fun _ => ⟨e, he, rfl, rfl⟩⟩
          rcases h with h | h | h <;> simp at h
        · by_cases hcmp : bcryptCompare sstr p.otp_hash = true
          · have hv : verify st ej (.str sstr) now =
                (.ok, insertSubscriber (deletePending st e) e) := by
              rw [verify_eq_of_found st ej sstr now e p he hlen hget]
              simp [hexp, hcmp]
            rw [hv]
            refine ⟨fun h => ?_, fun h => by simp at h⟩
            rcases h with h | h | h <;> simp at h
          · have hcmp' : bcryptCompare sstr p.otp_hash = false := by
              simpa using hcmp
            have hv : verify st ej (.str sstr) now = (.invalidCode, st) := by
              rw [verify_eq_of_found st ej sstr now e p he hlen hget]
              simp [hexp, hcmp']
            rw [hv]
            exact ⟨fun _ => rfl, fun h => by simp at h⟩
    | num n => simp [otpFormatOk] at hfmt2
    | bool b => simp [otpFormatOk] at hfmt2
    | obj => simp [otpFormatOk] at hfmt2
    | arr => simp [otpFormatOk] at hfmt2
    | null => simp [otpFormatOk] at hfmt2
    | missing => simp [otpFormatOk] at hfmt2

/-- C7 witness: the amended rollback theorem applied to a concrete failing
confirmation (wrong code on a live record): the store afterwards is exactly
the store before. -/
theorem confirm_failure_rollback_witness :
    (verify ⟨[], [⟨"a@b.com", ⟨0, "123456"⟩, 1000⟩]⟩ (.str "a@b.com")
        (.str "654321") 500).2 =
      ⟨[], [⟨"a@b.com", ⟨0, "123456"⟩, 1000⟩]⟩ :=
  (confirm_failure_rollback ⟨[], [⟨"a@b.com", ⟨0, "123456"⟩, 1000⟩]⟩
    (.str "a@b.com") (.str "654321") 500).1 (Or.inr (Or.inr (by decide)))

/-! ## Remaining subscribe evaluation lemmas -/

theorem subscribe_eq_of_invalid (st : Store) (ej : JsonVal) (env : Env)
    (tok : Option String) (prov : Provider) (now entropy salt : Nat)
    (d : Bool) (hval : validateEmail ej = none) :
    subscribe st ej env tok prov now entropy salt d = (.invalidEmail, st) := by
  unfold subscribe
  rw [hval]

theorem subscribe_eq_of_bot (st : Store) (ej : JsonVal) (env : Env)
    (tok : Option String) (prov : Provider) (now entropy salt : Nat)
    (d : Bool) (e : String) (hval : validateEmail ej = some e)
    (hbot : verifyRecaptcha env tok prov = false) :
    subscribe st ej env tok prov now entropy salt d = (.botSuspected, st) := by
  unfold subscribe
  rw [hval]
  simp [hbot]

/-! ## Preservation of the one-pending-row-per-email invariant -/

theorem pendingUniq_filter (st : Store) (f : Pending → Bool)
    (h : pendingUniq st) :
    ((st.pending.filter f).map Pending.email).Nodup :=
  List.Nodup.sublist ((List.filter_sublist _).map _) h

theorem pendingUniq_purge (st : Store) (now : Nat) (h : pendingUniq st) :
    pendingUniq (purgeExpired st now) := pendingUniq_filter st _ h

theorem pendingUniq_delete (st : Store) (e : String) (h : pendingUniq st) :
    pendingUniq (deletePending st e) := pendingUniq_filter st _ h

theorem pendingUniq_upsert (st : Store) (p : Pending) (h : pendingUniq st) :
    pendingUniq (upsertPending st p) := by
  unfold pendingUniq upsertPending
  simp only [List.map_cons]
  refine List.nodup_cons.mpr ⟨?_, pendingUniq_filter st _ h⟩
  intro hmem
  rw [List.mem_map] at hmem
  obtain ⟨q, hq, hemail⟩ := hmem
  have hne := List.of_mem_filter hq
  simp [hemail] at hne

theorem pendingUniq_insertSub (st : Store) (e : String) (h : pendingUniq st) :
    pendingUniq (insertSubscriber st e) := by
  unfold pendingUniq
  rw [insertSubscriber_pending]
  exact h

theorem subscribe_pendingUniq (st : Store) (ej : JsonVal) (env : Env)
    (tok : Option String) (prov : Provider) (now entropy salt : Nat)
    (d : Bool) (h : pendingUniq st) :
    pendingUniq (subscribe st ej env tok prov now entropy salt d).2 := by
  rcases hv : validateEmail ej with _ | e
  · rw [subscribe_eq_of_invalid st ej env tok prov now entropy salt d hv]
    exact h
  · by_cases hbot : verifyRecaptcha env tok prov = true
    · by_cases hsub : isSubscribed (purgeExpired st now) e = true
      · rw [subscribe_eq_of_already st ej env tok prov now entropy salt d e
          hv hbot hsub]
        exact pendingUniq_purge st now h
      · have hsub' : isSubscribed (purgeExpired st now) e = false := by
          simpa using hsub
        rw [subscribe_eq_of_pass st ej env tok prov now entropy salt d e
          hv hbot hsub']
        exact pendingUniq_upsert _ _ (pendingUniq_purge st now h)
    · have hbot' : verifyRecaptcha env tok prov = false := by simpa using hbot
      rw [subscribe_eq_of_bot st ej env tok prov now entropy salt d e hv hbot']
      exact h

theorem verify_pendingUniq (st : Store) (ej otpj : JsonVal) (now : Nat)
    (h : pendingUniq st) : pendingUniq (verify st ej otpj now).2 := by
  by_cases hfmt : validateEmail ej = none ∨ otpFormatOk otpj = false
  · rw [verify_eq_of_bad_format st ej otpj now hfmt]
    exact h
  · push_neg at hfmt
    obtain ⟨hvne, hfmt2⟩ := hfmt
    obtain ⟨e, he⟩ := Option.ne_none_iff_exists'.mp hvne
    cases otpj with
    | str sstr =>
      have hlen : sstr.length = 6 := by simpa [otpFormatOk] using hfmt2
      rcases hget : getPending st e with _ | p
      · rw [verify_eq_of_none st ej sstr now e he hlen hget]
        exact h
      · by_cases hexp : p.expires_at < now
        · have hvv : verify st ej (.str sstr) now =
              (.codeExpired, deletePending st e) := by
            rw [verify_eq_of_found st ej sstr now e p he hlen hget]
            simp [hexp]
          rw [hvv]
          exact pendingUniq_delete st e h
        · by_cases hcmp : bcryptCompare sstr p.otp_hash = true
          · have hvv : verify st ej (.str sstr) now =
                (.ok, insertSubscriber (deletePending st e) e) := by
              rw [verify_eq_of_found st ej sstr now e p he hlen hget]
              simp [hexp, hcmp]
            rw [hvv]
            exact pendingUniq_insertSub _ _ (pendingUniq_delete st e h)
          · have hcmp' : bcryptCompare sstr p.otp_hash = false := by
              simpa using hcmp
            have hvv : verify st ej (.str sstr) now = (.invalidCode, st) := by
              rw [verify_eq_of_found st ej sstr now e p he hlen hget]
              simp [hexp, hcmp']
            rw [hvv]
            exact h
    | num n => simp [otpFormatOk] at hfmt2
    | bool b => simp [otpFormatOk] at hfmt2
    | obj => simp [otpFormatOk] at hfmt2
    | arr => simp [otpFormatOk] at hfmt2
    | null => simp [otpFormatOk] at hfmt2
    | missing => simp [otpFormatOk] at hfmt2

/-! ## C6: at most one pending record per email; re-issuance replaces -/

/-- C6: both handlers preserve key-uniqueness of the pending table for
arbitrary requests (so any sequence of operations from a unique-key store
keeps at most one pending record per email), and a second issuance for the
same email before confirmation replaces the pending record under the same
key — new hash, new expiry — so that, the two generated codes being
distinct, confirming with the first-issued code after the second issuance
fails with InvalidCode. -/
theorem pending_unique_and_reissue_invalidates
    (st0 st : Store) (ej0 otpj0 ej : JsonVal) (env0 env : Env)
    (tok0 tok : Option String) (prov0 prov : Provider)
    (n0 e0 s0 vn0 now entropy salt now2 entropy2 salt2 : Nat)
    (d0 d d2 : Bool) (e : String)
    (huniq0 : pendingUniq st0)
    (hval : validateEmail ej = some e)
    (hbot : verifyRecaptcha env tok prov = true)
    (hsub : isSubscribed st e = false)
    (hne : otpString (randomInt 100000 999999 entropy) ≠
           otpString (randomInt 100000 999999 entropy2)) :
    pendingUniq (subscribe st0 ej0 env0 tok0 prov0 n0 e0 s0 d0).2 ∧
    pendingUniq (verify st0 ej0 otpj0 vn0).2 ∧
    getPending
      (subscribe (subscribe st ej env tok prov now entropy salt d).2 ej env
        tok prov now2 entropy2 salt2 d2).2 e =
      some ⟨e, bcryptHash (otpString (randomInt 100000 999999 entropy2)) salt2,
            now2 + 15 * 60 * 1000⟩ ∧
    (verify
      (subscribe (subscribe st ej env tok prov now entropy salt d).2 ej env
        tok prov now2 entropy2 salt2 d2).2 ej
      (.str (otpString (randomInt 100000 999999 entropy))) now2).1 =
      .invalidCode := by
  have hsub1 : isSubscribed (purgeExpired st now) e = false := hsub
  have hsubeq1 := subscribe_eq_of_pass st ej env tok prov now entropy salt d
    e hval hbot hsub1
  have hst1 : (subscribe st ej env tok prov now entropy salt d).2 =
      upsertPending (purgeExpired st now)
        ⟨e, bcryptHash (otpString (randomInt 100000 999999 entropy)) salt,
         now + 15 * 60 * 1000⟩ := by
    rw [hsubeq1]
  have hsub2 : isSubscribed
      (purgeExpired (upsertPending (purgeExpired st now)
        ⟨e, bcryptHash (otpString (randomInt 100000 999999 entropy)) salt,
         now + 15 * 60 * 1000⟩) now2) e = false := hsub
  have hsubeq2 := subscribe_eq_of_pass
    (upsertPending (purgeExpired st now)
      ⟨e, bcryptHash (otpString (randomInt 100000 999999 entropy)) salt,
       now + 15 * 60 * 1000⟩) ej env tok prov now2 entropy2 salt2 d2
    e hval hbot hsub2
  have hst2 : (subscribe (subscribe st ej env tok prov now entropy salt d).2
      ej env tok prov now2 entropy2 salt2 d2).2 =
      upsertPending (purgeExpired (upsertPending (purgeExpired st now)
        ⟨e, bcryptHash (otpString (randomInt 100000 999999 entropy)) salt,
         now + 15 * 60 * 1000⟩) now2)
        ⟨e, bcryptHash (otpString (randomInt 100000 999999 entropy2)) salt2,
         now2 + 15 * 60 * 1000⟩ := by
    rw [hst1, hsubeq2]
  have hget2 := getPending_upsert_self
    (purgeExpired (upsertPending (purgeExpired st now)
      ⟨e, bcryptHash (otpString (randomInt 100000 999999 entropy)) salt,
       now + 15 * 60 * 1000⟩) now2)
    ⟨e, bcryptHash (otpString (randomInt 100000 999999 entropy2)) salt2,
     now2 + 15 * 60 * 1000⟩
  have hcode := randomInt_mem entropy
  have hlen : (otpString (randomInt 100000 999999 entropy)).length = 6 :=
    otpString_length _ hcode.1 (by omega)
  refine ⟨subscribe_pendingUniq st0 ej0 env0 tok0 prov0 n0 e0 s0 d0 huniq0,
    verify_pendingUniq st0 ej0 otpj0 vn0 huniq0, ?_, ?_⟩
  · rw [hst2]
    exact hget2
  · rw [hst2]
    have hvv := verify_eq_of_found _ ej
      (otpString (randomInt 100000 999999 entropy)) now2 e _ hval hlen hget2
    rw [hvv]
    have hexp : ¬ (now2 + 15 * 60 * 1000 < now2) := by omega
    have hcmp : bcryptCompare (otpString (randomInt 100000 999999 entropy))
        (bcryptHash (otpString (randomInt 100000 999999 entropy2)) salt2) =
        false := by
      simp [bcryptCompare, bcryptHash, hne]
    simp [hexp, hcmp]

/-- C6 witness: issuing twice for `a@b.com` (entropies 0 then 1, codes
`"100000"` then `"100001"`) leaves exactly the second record, and confirming
with the first code fails with InvalidCode; the uniqueness preservation is
instantiated on a concrete two-row store. -/
theorem pending_unique_and_reissue_invalidates_witness :
    pendingUniq (subscribe ⟨[], [⟨"x@y.zz", ⟨7, "222222"⟩, 50⟩]⟩
      (.str "x@y.zz") ⟨false, false⟩ none .err 9 3 4 true).2 ∧
    pendingUniq (verify ⟨[], [⟨"x@y.zz", ⟨7, "222222"⟩, 50⟩]⟩ (.str "x@y.zz")
      (.str "222222") 9).2 ∧
    getPending
      (subscribe (subscribe ⟨[], []⟩ (.str "a@b.com") ⟨false, false⟩ none
        .err 0 0 0 true).2 (.str "a@b.com") ⟨false, false⟩ none .err 1 1 1
        true).2 "a@b.com" =
      some ⟨"a@b.com", ⟨1, "100001"⟩, 1 + 15 * 60 * 1000⟩ ∧
    (verify
      (subscribe (subscribe ⟨[], []⟩ (.str "a@b.com") ⟨false, false⟩ none
        .err 0 0 0 true).2 (.str "a@b.com") ⟨false, false⟩ none .err 1 1 1
        true).2 (.str "a@b.com") (.str "100000") 1).1 = .invalidCode :=
  pending_unique_and_reissue_invalidates
    ⟨[], [⟨"x@y.zz", ⟨7, "222222"⟩, 50⟩]⟩ ⟨[], []⟩ (.str "x@y.zz")
    (.str "222222") (.str "a@b.com") ⟨false, false⟩ ⟨false, false⟩ none none
    .err .err 9 3 4 9 0 0 0 1 1 1 true true true "a@b.com"
    (by decide) (by decide) (by decide) (by decide) (by decide)

/-! ## C9: the bot-check policy -/

/-- C9 counterexample: the claim fails on the v4 subscribe variant — with a
configured `6L...`-shaped secret and a non-bypass token, a thrown provider
error is only logged and the request falls through, so issuance is allowed
rather than rejected. -/
theorem v4_provider_error_allows_counterexample :
    v4BotAllows true true (some "real-token") .err = true := by
  decide

theorem verifyRecaptcha_eq_of_noskip (env : Env) (tok : Option String)
    (p : Provider) (h : recaptchaSkips env tok = false) :
    verifyRecaptcha env tok p =
      match p with
      | .err => false
      | .ok success score =>
        success && (score.isNone || decide ((1 : ℚ)/2 ≤ score.getD 0)) := by
  unfold recaptchaSkips at h
  rw [Bool.or_eq_false_iff] at h
  obtain ⟨h1, h2⟩ := h
  unfold verifyRecaptcha
  rw [h1, h2]
  simp

/-- C9 (amended): the property holds of the v5 `verifyRecaptcha` — the check
passes independently of the provider ("skip") exactly when no provider
secret is configured or the token is the `test-token` bypass outside
production; otherwise a provider error, an unsuccessful response, or a
score below 0.5 makes it return false, so issuance is rejected with the 403
security-check failure.  In the v4 variant the claim is false: provider
errors fail open and the bypass token is honoured even in production. -/
theorem verifyRecaptcha_policy (env : Env) (tok : Option String) :
    (recaptchaSkips env tok = true ↔
      ∀ p, verifyRecaptcha env tok p = true) ∧
    (recaptchaSkips env tok = false →
      verifyRecaptcha env tok .err = false ∧
      (∀ success s, s < (1 : ℚ)/2 →
        verifyRecaptcha env tok (.ok success (some s)) = false) ∧
      (∀ sc, verifyRecaptcha env tok (.ok false sc) = false)) := by
  constructor
  · constructor
    · intro hs p
      unfold verifyRecaptcha
      by_cases h1 : (!env.recaptchaConfigured) = true
      · rw [h1]
        simp
      · have h1' : (!env.recaptchaConfigured) = false := by simpa using h1
        have h2 : (!env.production && tok == some "test-token") = true := by
          unfold recaptchaSkips at hs
          rw [h1'] at hs
          simpa using hs
        rw [h1', h2]
        simp
    · intro hall
      by_contra hns
      have hns' : recaptchaSkips env tok = false := by simpa using hns
      have herr := hall .err
      rw [verifyRecaptcha_eq_of_noskip env tok .err hns'] at herr
      exact absurd herr (by simp)
  · intro hns
    refine ⟨?_, ?_, ?_⟩
    · rw [verifyRecaptcha_eq_of_noskip env tok .err hns]
    · intro success s hlt
      rw [verifyRecaptcha_eq_of_noskip env tok (.ok success (some s)) hns]
      have hd : decide ((1 : ℚ)/2 ≤ s) = false :=
        decide_eq_false_iff_not.mpr (not_le.mpr hlt)
      show (success && ((some s).isNone || decide ((1 : ℚ)/2 ≤ s))) = false
      rw [hd]
      simp
    · intro sc
      rw [verifyRecaptcha_eq_of_noskip env tok (.ok false sc) hns]
      simp

/-- C9 witness: the amended policy at the configured-production environment:
skipping is off, a provider error is rejected, and a successful response
with score 0.4 is rejected. -/
theorem verifyRecaptcha_policy_witness :
    verifyRecaptcha ⟨true, true⟩ none .err = false ∧
    verifyRecaptcha ⟨true, true⟩ none (.ok true (some ((2 : ℚ)/5))) = false :=
  have h := (verifyRecaptcha_policy ⟨true, true⟩ none).2 (by decide)
  ⟨h.1, h.2.1 true ((2 : ℚ)/5) (by norm_num)⟩

/-! ## C10: total input validation -/

/-- C10: validation is total over arbitrary request-body values: the email
field is rejected exactly when it is not a string or its lowercased,
trimmed form fails the pattern, in which case the subscribe handler answers
with the 400 validation error and the verify handler likewise — as it also
does whenever the otp field is not a string of length exactly 6 — and in
every such case the store is returned exactly unchanged, for every store,
environment and clock (the rejection happens before any store access). -/
theorem validation_total (st : Store) (ej otpj : JsonVal) (env : Env)
    (tok : Option String) (prov : Provider) (now entropy salt vnow : Nat)
    (d : Bool) :
    (validateEmail ej = none ↔
      (∀ s, ej ≠ .str s) ∨
      ∃ s, ej = .str s ∧ emailRegexTest (jsTrim (jsToLower s)) = false) ∧
    (validateEmail ej = none →
      subscribe st ej env tok prov now entropy salt d = (.invalidEmail, st)) ∧
    (validateEmail ej = none ∨ otpFormatOk otpj = false →
      verify st ej otpj vnow = (.invalidInput, st)) := by
  refine ⟨?_,
    fun h => subscribe_eq_of_invalid st ej env tok prov now entropy salt d h,
    fun h => verify_eq_of_bad_format st ej otpj vnow h⟩
  cases ej with
  | str s =>
    by_cases ht : emailRegexTest (jsTrim (jsToLower s)) = true
    · have hv : validateEmail (.str s) = some (jsTrim (jsToLower s)) := by
        simp [validateEmail, ht]
      rw [hv]
      constructor
      · intro h
        exact Option.noConfusion h
      · rintro (hall | ⟨s2, hs2, hfalse⟩)
        · exact absurd rfl (hall s)
        · injection hs2 with hss
          subst hss
          rw [ht] at hfalse
          exact Bool.noConfusion hfalse
    · have hne2 : emailRegexTest (jsTrim (jsToLower s)) = false := by
        simpa using ht
      have hv : validateEmail (.str s) = none := by
        simp [validateEmail, hne2]
      rw [hv]
      exact ⟨fun _ => Or.inr ⟨s, rfl, hne2⟩, fun _ => rfl⟩
  | num n => exact ⟨fun _ => Or.inl fun s h => JsonVal.noConfusion h,
      fun _ => rfl⟩
  | bool b => exact ⟨fun _ => Or.inl fun s h => JsonVal.noConfusion h,
      fun _ => rfl⟩
  | obj => exact ⟨fun _ => Or.inl fun s h => JsonVal.noConfusion h,
      fun _ => rfl⟩
  | arr => exact ⟨fun _ => Or.inl fun s h => JsonVal.noConfusion h,
      fun _ => rfl⟩
  | null => exact ⟨fun _ => Or.inl fun s h => JsonVal.noConfusion h,
      fun _ => rfl⟩
  | missing => exact ⟨fun _ => Or.inl fun s h => JsonVal.noConfusion h,
      fun _ => rfl⟩

/-- C10 witness: a numeric email field is rejected by both handlers with the
store unchanged, and a 3-character otp is likewise rejected. -/
theorem validation_total_witness :
    subscribe ⟨[], []⟩ (.num 5) ⟨false, false⟩ none .err 0 0 0 true =
      (.invalidEmail, ⟨[], []⟩) ∧
    verify ⟨[], []⟩ (.str "a@b.com") (.str "123") 0 =
      (.invalidInput, ⟨[], []⟩) :=
  have h1 := validation_total ⟨[], []⟩ (.num 5) (.str "123") ⟨false, false⟩
    none .err 0 0 0 0 true
  have h2 := validation_total ⟨[], []⟩ (.str "a@b.com") (.str "123")
    ⟨false, false⟩ none .err 0 0 0 0 true
  ⟨h1.2.1 (by decide), h2.2.2 (Or.inr (by decide))⟩

end Parbat
